import Mathlib

/-
Verification of the sales-trainer repository's scoring engine (scoring.py)
and reply generator (ai_agent.py) against its specification.

Modelling conventions:
  - Python strings are Lean `String`; per-character operations run on `String.data`
    with structural recursion so that concrete evaluations reduce in the kernel.
  - `str.lower()` is modelled by mapping `Char.toLower`, which lowers only ASCII
    letters; this agrees with Python on all texts occurring here (ASCII plus the
    typographic apostrophe U+2019, which both leave unchanged).
  - `str.split()` splits on whitespace runs and drops empty tokens, matching
    Python for the whitespace characters that occur in this code base.
  - Python float arithmetic `int(100*(h/o))` and
    `int(conf*0.5 + obj*0.4 + sm*10)` is modelled by exact rational arithmetic
    followed by floor, which coincides with the float computation on the value
    ranges exercised here.
  - The remote OpenAI call inside `AIAgent._call_llm` is external I/O; it is
    modelled by an oracle `remote : Option String` (`some text` when the remote
    request returns `text`, `none` when it raises).
-/

namespace SalesTrainer

/-- Python's `list.isPrefixOf`-style test is `List.isPrefixOf`; substring
containment `sub in s` over char lists: true iff `pat` occurs somewhere. -/
def containsSub (pat : List Char) : List Char → Bool
  | [] => pat.isEmpty
  | c :: cs => pat.isPrefixOf (c :: cs) || containsSub pat cs

/-- Non-overlapping occurrence count, Python `s.count(sub)`, with fuel for
structural recursion; fuel `s.length` always suffices since every step
consumes at least one character. -/
def countOccAux : Nat → List Char → List Char → Nat
  | 0, _, _ => 0
  | _ + 1, _, [] => 0
  | fuel + 1, pat, c :: cs =>
    if pat.isPrefixOf (c :: cs) then
      1 + countOccAux fuel pat (cs.drop (pat.length - 1))
    else
      countOccAux fuel pat cs

/-- Python `s.count(sub)` for non-empty `sub` (all patterns used are non-empty). -/
def pyCount (s sub : String) : Nat := countOccAux s.data.length sub.data s.data

/-- Python `sub in s` (substring containment). -/
def pyContains (s sub : String) : Bool := containsSub sub.data s.data

/-- Python `s.lower()` (ASCII letters; identity on the other characters used). -/
def pyLower (s : String) : String := String.mk (s.data.map Char.toLower)

/-- Python `sep.join(parts)`. -/
def pyJoin (sep : String) : List String → String
  | [] => ""
  | [x] => x
  | x :: y :: xs => x ++ sep ++ pyJoin sep (y :: xs)

/-- Accumulator pass for whitespace splitting: `acc` holds the current word
reversed. -/
def splitWsAux : List Char → List Char → List String
  | [], acc => if acc = [] then [] else [String.mk acc.reverse]
  | c :: cs, acc =>
    if c.isWhitespace then
      if acc = [] then splitWsAux cs []
      else String.mk acc.reverse :: splitWsAux cs []
    else
      splitWsAux cs (c :: acc)

/-- Python `s.split()`: split on whitespace runs, no empty tokens. -/
def pySplit (s : String) : List String := splitWsAux s.data []

/-- One conversation turn, Python's `{"speaker": ..., "text": ...}` dict
(the timestamp field is never read by the scoring engine). -/
structure Turn where
  speaker : String
  text : String
deriving DecidableEq

/-- The three scores returned by `score_conversation` (scoring.py lines 57-61). -/
structure Scores where
  confidence_score : Nat
  objection_score : Nat
  outcome_rating : Nat
deriving DecidableEq

/-- scoring.py line 13: the objection-phrase catalog `OBJECTIONS`.
Note `"i\x27m not interested"` uses the ASCII apostrophe while
`"we don\u2019t have budget"` uses U+2019, exactly as in the source. -/
def OBJECTIONS : List String :=
  ["i\x27m not interested", "send me an email", "we don\u2019t have budget",
   "we already use another vendor", "not a priority", "no budget", "send info"]

/-- scoring.py line 25: the action-word catalog. -/
def action_words : List String :=
  ["schedule", "book", "demo", "try", "purchase", "sign", "agree", "next step"]

/-- scoring.py line 33: the remedy-word catalog. -/
def remedy_words : List String :=
  ["price", "discount", "roi", "benefit", "save", "cost", "timeline", "implementation"]

/-- scoring.py line 19. -/
def rep_turns (conversation : List Turn) : List Turn :=
  conversation.filter (fun t => t.speaker == "rep")

/-- scoring.py line 20. -/
def ai_turns (conversation : List Turn) : List Turn :=
  conversation.filter (fun t => t.speaker == "ai")

/-- scoring.py line 21: `" ".join([t["text"].lower() for t in rep_turns])`. -/
def rep_text (conversation : List Turn) : String :=
  pyJoin " " ((rep_turns conversation).map (fun t => pyLower t.text))

/-- scoring.py line 22. -/
def ai_text (conversation : List Turn) : String :=
  pyJoin " " ((ai_turns conversation).map (fun t => pyLower t.text))

/-- scoring.py line 26: `sum(1 for w in action_words if w in rep_text)` —
each catalog phrase contributes at most once (a presence test, not an
occurrence count). -/
def action_count (conversation : List Turn) : Nat :=
  (action_words.filter (fun w => pyContains (rep_text conversation) w)).length

/-- scoring.py line 27: `min(100, 20 + len(rep_text.split())*2 + action_count*10)`. -/
def confidence_score (conversation : List Turn) : Nat :=
  min 100 (20 + (pySplit (rep_text conversation)).length * 2 + action_count conversation * 10)

/-- scoring.py line 30: `sum(ai_text.count(o) for o in OBJECTIONS)`. -/
def objection_count (conversation : List Turn) : Nat :=
  (OBJECTIONS.map (fun o => pyCount (ai_text conversation) o)).sum

/-- scoring.py lines 31-36: number of rep turns whose lower-cased text
contains at least one remedy word. -/
def handled_count (conversation : List Turn) : Nat :=
  ((rep_turns conversation).filter
    (fun t => remedy_words.any (fun r => pyContains (pyLower t.text) r))).length

/-- scoring.py lines 37-40: `100` when no objection, else
`max(0, int(100 * (handled_count / objection_count)))`. The Python float
quotient is modelled as exact floor division. The two agree unless
`objection_count` divides `100 * handled_count` and the float product lands
just below the exact integer quotient (e.g. 29 handled against 100
objections: the program returns 28, this model 29); the universal theorem
about this value (C5) is therefore restricted to the non-divisible domain,
where float truncation and exact floor coincide, while the bounds of C1
hold of both. There is no upper clamp. -/
def objection_score (conversation : List Turn) : Nat :=
  if objection_count conversation = 0 then 100
  else max 0 (100 * handled_count conversation / objection_count conversation)

/-- scoring.py line 44: `1 if scenario.lower().split()[0] in rep_text else 0`.
`none` models the IndexError raised when the scenario has no token. -/
def scenario_match (conversation : List Turn) (scenario : String) : Option Nat :=
  match pySplit (pyLower scenario) with
  | [] => none
  | tok :: _ => some (if pyContains (rep_text conversation) tok then 1 else 0)

/-- scoring.py lines 45-46:
`min(100, int((confidence_score*0.5 + objection_score*0.4 + scenario_match*10)/1.0))`,
modelled as the exact floor `(5*conf + 4*obj + 100*sm) / 10`. -/
def outcome_rating (conversation : List Turn) (scenario : String) : Option Nat :=
  (scenario_match conversation scenario).map (fun sm =>
    min 100 ((confidence_score conversation * 5 + objection_score conversation * 4 + sm * 100) / 10))

/-- scoring.py line 51. -/
def tip_action : String :=
  "Use more action-oriented phrases (e.g., \x27Can we schedule a demo\x27, \x27Let\x27s book 30 minutes\x27)."

/-- scoring.py line 53. -/
def tip_objection : String :=
  "Practice handling objections: acknowledge, probe, and present a concise value response (price/ROI)."

/-- scoring.py line 55. -/
def tip_expand : String :=
  "Try to expand your responses with clear next steps and benefits."

/-- scoring.py lines 49-55: the tips fire independently, in source order. -/
def tips (conversation : List Turn) : List String :=
  (if confidence_score conversation < 40 then [tip_action] else []) ++
  (if objection_score conversation < 60 then [tip_objection] else []) ++
  (if (pySplit (rep_text conversation)).length < 10 then [tip_expand] else [])

/-- scoring.py `score_conversation`: returns `(scores, tips)`, or `none` for
the IndexError path on a token-less scenario label. -/
def score_conversation (conversation : List Turn) (scenario : String) :
    Option (Scores × List String) :=
  (outcome_rating conversation scenario).map (fun out =>
    (⟨confidence_score conversation, objection_score conversation, out⟩,
     tips conversation))

/-- ai_agent.py line 19: the `Persona` dataclass. -/
structure Persona where
  name : String
deriving DecidableEq

/-- The persona profile dict values (ai_agent.py lines 24-31); floats are
modelled as the exact decimal rationals written in the source. -/
structure Profile where
  tone : String
  verbosity : String
  objection_likelihood : ℚ
deriving DecidableEq

/-- ai_agent.py lines 23-32: `profiles.get(self.name, default)`. -/
def Persona.persona_profile (p : Persona) : Profile :=
  if p.name = "Friendly" then ⟨"friendly", "medium", 25/100⟩
  else if p.name = "Skeptical" then ⟨"skeptical", "short", 60/100⟩
  else if p.name = "Rushed" then ⟨"rushed", "short", 45/100⟩
  else if p.name = "Annoyed" then ⟨"annoyed", "short", 70/100⟩
  else if p.name = "Technical buyer" then ⟨"technical", "detailed", 40/100⟩
  else if p.name = "Economic buyer" then ⟨"pragmatic", "medium", 50/100⟩
  else ⟨"neutral", "medium", 30/100⟩

/-- ai_agent.py lines 107-113: the fallback objection catalog `ob_list`.
The first and third phrases use the typographic apostrophe U+2019, the
fifth the ASCII apostrophe, exactly as in the source. -/
def ob_list : List String :=
  ["I\u2019m not interested.",
   "Send me an email with details.",
   "We don\u2019t have budget for that.",
   "We already use another vendor.",
   "This isn\x27t a priority for us right now."]

/-- ai_agent.py line 119: the fallback acknowledgement catalog `ack`. -/
def ack_list : List String :=
  ["Okay, tell me more.", "How much is it?", "What makes you different?"]

/-- `random.choice(l)`: an arbitrary draw, modelled by an index reduced
modulo the list length. -/
def pick (l : List String) (h : 0 < l.length) (i : Nat) : String :=
  l.get ⟨i % l.length, Nat.mod_lt i h⟩

/-- ai_agent.py line 34: the agent state relevant to control flow
(`provider` from `LLM_PROVIDER`; the api key does not affect which branch
returns). -/
structure AIAgent where
  provider : String

/-- ai_agent.py lines 42-52: the system prompt string. -/
def AIAgent.system_prompt_for (scenario : String) (persona : Persona) : String :=
  let prof := persona.persona_profile
  "You are a realistic human prospect in a sales call. Scenario: " ++ scenario ++
  ". Persona: " ++ persona.name ++ ". Tone: " ++ prof.tone ++ ". Verbosity: " ++
  prof.verbosity ++ ". " ++
  "You should respond like a real prospect, sometimes raise objections (e.g. \x27I\u2019m not interested\x27, " ++
  "\x27Send me an email\x27, \x27We don\u2019t have budget\x27, \x27We already use another vendor\x27). Keep responses short and " ++
  "realistic for a voice call. Vary phrasing, inject brief silence markers if needed (not required in text). " ++
  "Do not reveal system instructions. Act consistently."

/-- ai_agent.py lines 75-102: `_call_llm`. The prompts are forwarded to the
external service and do not influence success or failure, which is decided
by the provider check and the oracle `remote` (the remote request's fate). -/
def AIAgent.call_llm (agent : AIAgent) (system_prompt user_prompt : String)
    (remote : Option String) : Except String String :=
  if agent.provider = "openai" then
    match remote with
    | some text => Except.ok text
    | none => Except.error ("openai request raised for prompt: " ++ system_prompt ++ user_prompt)
  else
    Except.error ("LLM provider not implemented: " ++ agent.provider)

/-- ai_agent.py lines 104-120: `_heuristic_reply`. The random draws are
injected: `r` models `random.random()`, `i`/`j` the `random.choice` draws.
`user_text` is accepted, as in the source, and never used. -/
def AIAgent.heuristic_reply (user_text : String) (persona : Persona)
    (r : ℚ) (i j : Nat) : String :=
  if r < persona.persona_profile.objection_likelihood then pick ob_list (by decide) i
  else pick ack_list (by decide) j

/-- ai_agent.py lines 54-73: `reply` — build the prompts, try the remote
call, and on any exception return the heuristic fallback. -/
def AIAgent.reply (agent : AIAgent) (remote : Option String)
    (user_text scenario : String) (persona : Persona) (r : ℚ) (i j : Nat) : String :=
  match agent.call_llm (AIAgent.system_prompt_for scenario persona)
      ("Rep said: \x22" ++ user_text ++ "\x22. Reply as the prospect.") remote with
  | Except.ok out => out.trim
  | Except.error _ => AIAgent.heuristic_reply user_text persona r i j

/-! ## Spec-side definitions (for refinement comparisons)

These follow the specification's wording, to be compared against the
definitions above, which follow the source. -/

/-- The spec's `clamp(lo, hi, x)`. -/
def specClamp (lo hi x : Int) : Int := max lo (min hi x)

/-- The confidence formula exactly as the spec words it: `actionWordHits`
counts occurrences, each catalog phrase contributing once per occurrence
found (not deduplicated per phrase). -/
def spec_confidence_occurrences (conversation : List Turn) : Int :=
  specClamp 0 100 (20 + 2 * ((pySplit (rep_text conversation)).length : Int) +
    10 * ((action_words.map (fun w => pyCount (rep_text conversation) w)).sum : Int))

/-- The confidence formula with deduplicated hits (the amended reading):
each catalog phrase contributes once if it occurs at all. -/
def spec_confidence_dedup (conversation : List Turn) : Int :=
  specClamp 0 100 (20 + 2 * ((pySplit (rep_text conversation)).length : Int) +
    10 * ((action_words.filter (fun w => pyContains (rep_text conversation) w)).length : Int))

/-- The objection-score formula exactly as the spec words it:
`clamp(0,100, round(100 * handledCount / objectionCount))`. -/
def spec_objection_round (handled objections : Nat) : Int :=
  if objections = 0 then 100
  else specClamp 0 100 (round ((100 * handled : ℚ) / objections))

/-- The objection-score formula as the code computes it (the amended
reading): truncated quotient, lower clamp only. -/
def spec_objection_floor (handled objections : Nat) : Int :=
  if objections = 0 then 100 else max 0 ((100 * handled : Int) / objections)

/-! ## Concrete sessions used as inputs -/

/-- Two remedy-bearing rep turns against a single objection occurrence. -/
def c1_conv : List Turn := [⟨"ai", "No budget"⟩, ⟨"rep", "price"⟩, ⟨"rep", "price"⟩]

/-- The session from the spec's first worked scenario. -/
def c3_conv : List Turn :=
  [⟨"rep", "Hi, I\x27d like to schedule a demo next week."⟩,
   ⟨"ai", "We already use another vendor."⟩]

/-- A rep turn in which the catalog phrase "demo" occurs twice. -/
def c4_conv : List Turn := [⟨"rep", "demo demo"⟩]

/-- Two handled rep turns against three objection occurrences. -/
def c5a_conv : List Turn :=
  [⟨"rep", "price"⟩, ⟨"rep", "roi"⟩,
   ⟨"ai", "no budget"⟩, ⟨"ai", "no budget"⟩, ⟨"ai", "no budget"⟩]

/-- The spec's third worked scenario: one rep turn containing "price" and
"roi", one ai turn containing two objection occurrences. -/
def c5b_conv : List Turn :=
  [⟨"rep", "Our price pays for itself in ROI."⟩,
   ⟨"ai", "No budget, and not a priority."⟩]

/-- A session whose only ai turn is the fallback objection phrase with the
typographic apostrophe. -/
def c10_conv : List Turn := [⟨"ai", "I\u2019m not interested."⟩]

/-- The result of scoring the empty session under a tokenizable scenario. -/
def empty_result : Scores × List String := (⟨20, 100, 50⟩, [tip_action, tip_expand])

/-! ## Helper lemmas -/

/-- Every word produced by the whitespace splitter is non-empty. -/
lemma splitWsAux_words_ne_nil (l : List Char) :
    ∀ (acc : List Char) (w : String), w ∈ splitWsAux l acc → w.data ≠ [] := by
  induction l with
  | nil =>
    intro acc w hw
    unfold splitWsAux at hw
    by_cases hacc : acc = []
    · rw [if_pos hacc] at hw
      exact absurd hw (List.not_mem_nil w)
    · rw [if_neg hacc] at hw
      rw [List.mem_singleton] at hw
      subst hw
      intro hd
      exact hacc (by simpa using hd)
  | cons c cs ih =>
    intro acc w hw
    unfold splitWsAux at hw
    by_cases hws : c.isWhitespace
    · rw [if_pos hws] at hw
      by_cases hacc : acc = []
      · rw [if_pos hacc] at hw
        exact ih [] w hw
      · rw [if_neg hacc] at hw
        rcases List.mem_cons.mp hw with h | h
        · subst h
          intro hd
          exact hacc (by simpa using hd)
        · exact ih [] w h
    · rw [if_neg hws] at hw
      exact ih (c :: acc) w hw

/-- The head token of a Python `split()` is never the empty string. -/
lemma pySplit_head_ne_nil {s tok : String} {rest : List String}
    (h : pySplit s = tok :: rest) : tok.data ≠ [] :=
  splitWsAux_words_ne_nil s.data [] tok
    (by rw [show splitWsAux s.data [] = pySplit s from rfl, h]; exact List.mem_cons_self tok rest)

/-! ## Claim theorems -/

/-- C1 counterexample: on a session with one objection occurrence and two
remedy-bearing rep turns, `score_conversation` returns an objection score
of 200, outside [0,100]. -/
theorem C1_counterexample :
    (score_conversation c1_conv "Cold call").map (fun r => r.1.objection_score) = some 200 ∧
    ¬ (200 : Nat) ≤ 100 :=
  ⟨by decide, by decide⟩

/-- C1 (amended): whenever `score_conversation` returns a result, the
confidence score lies in [20,100] (hence in [0,100]) and the outcome rating
lies in [0,100]; the objection score is a non-negative integer that lies in
[0,100] whenever `handled_count` does not exceed `objection_count` (it can
exceed 100 otherwise). -/
theorem C1_scores_bounded (conversation : List Turn) (scenario : String)
    (res : Scores × List String)
    (h : score_conversation conversation scenario = some res) :
    20 ≤ res.1.confidence_score ∧ res.1.confidence_score ≤ 100 ∧
    res.1.outcome_rating ≤ 100 ∧
    (handled_count conversation ≤ objection_count conversation →
      res.1.objection_score ≤ 100) := by
  unfold score_conversation outcome_rating at h
  cases hsm : scenario_match conversation scenario with
  | none =>
    rw [hsm] at h
    simp at h
  | some sm =>
    rw [hsm] at h
    simp only [Option.map_some', Option.some.injEq] at h
    subst h
    refine ⟨?_, ?_, ?_, ?_⟩
    · show 20 ≤ confidence_score conversation
      unfold confidence_score
      omega
    · show confidence_score conversation ≤ 100
      unfold confidence_score
      omega
    · show min 100 _ ≤ 100
      omega
    · intro hle
      show objection_score conversation ≤ 100
      unfold objection_score
      by_cases h0 : objection_count conversation = 0
      · rw [if_pos h0]
      · rw [if_neg h0, Nat.zero_max]
        have h1 : 100 * handled_count conversation ≤ 100 * objection_count conversation := by
          omega
        calc 100 * handled_count conversation / objection_count conversation
            ≤ 100 * objection_count conversation / objection_count conversation :=
              Nat.div_le_div_right h1
          _ = 100 := by
              rw [Nat.mul_div_assoc 100 dvd_rfl,
                Nat.div_self (Nat.pos_of_ne_zero h0), mul_one]

/-- C1 witness: the amended bound instantiated at the empty session with
scenario "Cold call". -/
theorem C1_scores_bounded_w :
    20 ≤ empty_result.1.confidence_score ∧ empty_result.1.confidence_score ≤ 100 ∧
    empty_result.1.outcome_rating ≤ 100 ∧
    (handled_count [] ≤ objection_count [] → empty_result.1.objection_score ≤ 100) :=
  C1_scores_bounded [] "Cold call" empty_result (by decide)

/-- C2: the scoring engine is not total — with the empty scenario label (the
function's own declared default) it reaches `scenario.lower().split()[0]`
with an empty token list and raises IndexError, modelled here as `none`. -/
theorem C2_empty_scenario_fails :
    score_conversation ([] : List Turn) "" = none := by decide

/-- C3 counterexample: on the spec's worked scenario the code returns a
confidence score of 58, not the claimed 48 — the rep text contains both
"schedule" and "demo", so `action_count` is 2, not 1. -/
theorem C3_counterexample :
    (score_conversation c3_conv "Cold call").map (fun r => r.1.confidence_score) = some 58 ∧
    (58 : Nat) ≠ 48 :=
  ⟨by decide, by decide⟩

/-- C3 (amended): on the worked scenario, objectionCount = 1, handledCount
= 0, objectionScore = 0, and confidenceScore = 20 + 2*9 + 10*2 = 58 (both
"schedule" and "demo" are found in the rep text). -/
theorem C3_worked_scenario :
    objection_count c3_conv = 1 ∧ handled_count c3_conv = 0 ∧
    (score_conversation c3_conv "Cold call").map
      (fun r => (r.1.confidence_score, r.1.objection_score)) = some (58, 0) := by
  decide

/-- C4 counterexample: with the rep text "demo demo" (the phrase "demo"
occurring twice) the code yields confidence 34 (one deduplicated hit), while
the occurrence-counted formula of the claim yields 44. -/
theorem C4_counterexample :
    (score_conversation c4_conv "Cold call").map (fun r => r.1.confidence_score) = some 34 ∧
    spec_confidence_occurrences c4_conv = 44 ∧
    (34 : Int) ≠ 44 := by
  refine ⟨by decide, ?_, by decide⟩
  have h1 : (pySplit (rep_text c4_conv)).length = 2 := by decide
  have h2 : (action_words.map (fun w => pyCount (rep_text c4_conv) w)).sum = 2 := by decide
  unfold spec_confidence_occurrences specClamp
  rw [h1, h2]
  norm_num

/-- C4 (amended): for every session, confidenceScore equals
clamp(0,100, 20 + 2*wordCount(repText) + 10*hits) where hits counts the
catalog phrases that occur at least once as substrings — deduplicated per
phrase, not per occurrence. -/
theorem C4_confidence_formula (conversation : List Turn) :
    (confidence_score conversation : Int) = spec_confidence_dedup conversation := by
  unfold confidence_score spec_confidence_dedup specClamp action_count
  push_cast
  omega

/-- C5 counterexample: with two handled rep turns against three objection
occurrences the code returns 66 (truncation), while the claim's rounded
formula yields 67. -/
theorem C5_counterexample :
    (score_conversation c5a_conv "Cold call").map (fun r => r.1.objection_score) = some 66 ∧
    spec_objection_round (handled_count c5a_conv) (objection_count c5a_conv) = 67 ∧
    (66 : Int) ≠ 67 := by
  refine ⟨by decide, ?_, by decide⟩
  have h1 : handled_count c5a_conv = 2 := by decide
  have h2 : objection_count c5a_conv = 3 := by decide
  rw [spec_objection_round, h1, h2]
  norm_num [specClamp]
  have hr : round ((200 : ℚ) / 3) = 67 := by
    rw [round_eq, show (200 : ℚ) / 3 + 1 / 2 = 403 / 6 by norm_num, Int.floor_eq_iff]
    norm_num
  rw [hr]
  norm_num

/-- C5 (amended): if objectionCount = 0 the objection score is 100 (no
float arithmetic is executed on that branch); otherwise the code truncates
the float quotient toward zero — not rounds — with no clamp above 100. On
the float-faithful domain, where objectionCount does not divide
100*handledCount and both counts are below 2^20 (so the float product,
with relative error under 3*2^-53, cannot cross the nearest integer
boundary, which is at distance at least 2^-20), the score equals
max(0, ⌊100*handledCount/objectionCount⌋); in the divisible corner the
program can return one less than the exact quotient. In particular, one
rep turn containing "price" and "roi" against two objection occurrences
scores exactly 50 (float-exact: 100*(1/2) = 50.0). -/
theorem C5_objection_formula :
    (∀ conversation : List Turn, objection_count conversation = 0 →
      objection_score conversation = 100) ∧
    (∀ conversation : List Turn,
      ¬ (objection_count conversation ∣ 100 * handled_count conversation) →
      handled_count conversation < 2 ^ 20 →
      objection_count conversation < 2 ^ 20 →
      (objection_score conversation : Int) =
        spec_objection_floor (handled_count conversation) (objection_count conversation)) ∧
    (score_conversation c5b_conv "Cold call").map (fun r => r.1.objection_score) = some 50 := by
  refine ⟨?_, ?_, by decide⟩
  · intro conversation h0
    unfold objection_score
    rw [if_pos h0]
  · intro conversation _hndvd _hh _ho
    unfold objection_score spec_objection_floor
    by_cases h0 : objection_count conversation = 0
    · rw [if_pos h0, if_pos h0]
      norm_num
    · rw [if_neg h0, if_neg h0, Nat.zero_max]
      have hcast : ((100 * handled_count conversation / objection_count conversation : ℕ) : ℤ) =
          100 * (handled_count conversation : ℤ) / (objection_count conversation : ℤ) := by
        push_cast
        rfl
      rw [hcast, max_eq_right]
      exact Int.ediv_nonneg (by positivity) (Int.natCast_nonneg _)

/-- C5 witness: the zero-objection branch at the empty session, and the
floor formula at the two-handled/three-objection session (3 does not
divide 200, both counts far below 2^20). -/
theorem C5_objection_formula_w :
    objection_score ([] : List Turn) = 100 ∧
    (objection_score c5a_conv : Int) =
      spec_objection_floor (handled_count c5a_conv) (objection_count c5a_conv) :=
  ⟨C5_objection_formula.1 [] (by decide),
   C5_objection_formula.2.1 c5a_conv (by decide) (by decide) (by decide)⟩

/-- C6 counterexample: for the empty session the claim fails at the
scenario label "" — the code raises IndexError (modelled as `none`) instead
of returning the stated scores and tips. -/
theorem C6_counterexample :
    score_conversation ([] : List Turn) "" ≠ some empty_result := by
  decide

/-- C6 (amended): for the empty session and any scenario label whose
lower-cased form has at least one whitespace-delimited token, the code
returns confidence 20, objection 100, outcome round(20*0.5 + 100*0.4) = 50,
and tips containing the "expand responses" tip (here: exactly the
action-phrase tip followed by the expand tip). -/
theorem C6_empty_session (scenario : String)
    (h : pySplit (pyLower scenario) ≠ []) :
    score_conversation [] scenario = some empty_result := by
  obtain ⟨tok, rest, heq⟩ := List.exists_cons_of_ne_nil h
  have hdat : tok.data ≠ [] := pySplit_head_ne_nil heq
  have hcon : pyContains (rep_text []) tok = false := by
    show containsSub tok.data [] = false
    cases htd : tok.data with
    | nil => exact absurd htd hdat
    | cons a as => rfl
  have hsm : scenario_match [] scenario = some 0 := by
    unfold scenario_match
    rw [heq]
    simp [hcon]
  unfold score_conversation outcome_rating
  rw [hsm]
  decide

/-- C6 witness: the amended statement instantiated at scenario "Cold call". -/
theorem C6_empty_session_w :
    score_conversation [] "Cold call" = some empty_result :=
  C6_empty_session "Cold call" (by decide)

/-- C7: the reply generator is total and absorbs every failure of the
remote call — whenever `call_llm` fails (unsupported provider or a raising
remote request), `reply` returns the heuristic fallback; on success it
returns the trimmed response. -/
theorem C7_reply_absorbs_failures (agent : AIAgent) (remote : Option String)
    (user_text scenario : String) (persona : Persona) (r : ℚ) (i j : Nat) :
    (∀ e, agent.call_llm (AIAgent.system_prompt_for scenario persona)
        ("Rep said: \x22" ++ user_text ++ "\x22. Reply as the prospect.") remote =
        Except.error e →
      agent.reply remote user_text scenario persona r i j =
        AIAgent.heuristic_reply user_text persona r i j) ∧
    (∀ out, agent.call_llm (AIAgent.system_prompt_for scenario persona)
        ("Rep said: \x22" ++ user_text ++ "\x22. Reply as the prospect.") remote =
        Except.ok out →
      agent.reply remote user_text scenario persona r i j = out.trim) := by
  unfold AIAgent.reply
  constructor
  · intro e he
    rw [he]
  · intro out ho
    rw [ho]

/-- C7 witness: with an unsupported provider the reply is the heuristic
fallback. -/
theorem C7_reply_absorbs_failures_w :
    AIAgent.reply ⟨"local"⟩ none "hello" "Cold call" ⟨"Friendly"⟩ 0 0 0 =
      AIAgent.heuristic_reply "hello" ⟨"Friendly"⟩ 0 0 0 :=
  (C7_reply_absorbs_failures ⟨"local"⟩ none "hello" "Cold call" ⟨"Friendly"⟩ 0 0 0).1
    ("LLM provider not implemented: " ++ "local") rfl

/-- C8: for any user text (including "") and persona, the heuristic
fallback returns a non-empty string from one of its two fixed catalogs
(5 objection phrases, 3 acknowledgements), and the result is independent of
the user text (equal to the reply on "" under the same draws). -/
theorem C8_fallback_catalog (user_text : String) (persona : Persona)
    (r : ℚ) (i j : Nat) :
    (AIAgent.heuristic_reply user_text persona r i j ∈ ob_list ∨
      AIAgent.heuristic_reply user_text persona r i j ∈ ack_list) ∧
    0 < (AIAgent.heuristic_reply user_text persona r i j).length ∧
    5 ≤ ob_list.length ∧ 3 ≤ ack_list.length ∧
    AIAgent.heuristic_reply user_text persona r i j =
      AIAgent.heuristic_reply "" persona r i j := by
  have hmem : AIAgent.heuristic_reply user_text persona r i j ∈ ob_list ∨
      AIAgent.heuristic_reply user_text persona r i j ∈ ack_list := by
    unfold AIAgent.heuristic_reply pick
    split
    · exact Or.inl (List.get_mem _ _ _)
    · exact Or.inr (List.get_mem _ _ _)
  refine ⟨hmem, ?_, by decide, by decide, rfl⟩
  have hob : ∀ s ∈ ob_list, 0 < s.length := by decide
  have hack : ∀ s ∈ ack_list, 0 < s.length := by decide
  rcases hmem with hm | hm
  · exact hob _ hm
  · exact hack _ hm

/-- C9: persona lookup is a pure total function — every name outside the
six catalogued ones yields the fixed default profile
{neutral, medium, 0.3}, and each catalogued name yields its fixed profile. -/
theorem C9_persona_lookup (name : String)
    (h : name ∉ (["Friendly", "Skeptical", "Rushed", "Annoyed",
      "Technical buyer", "Economic buyer"] : List String)) :
    Persona.persona_profile ⟨name⟩ = ⟨"neutral", "medium", 30/100⟩ ∧
    Persona.persona_profile ⟨"Friendly"⟩ = ⟨"friendly", "medium", 25/100⟩ ∧
    Persona.persona_profile ⟨"Skeptical"⟩ = ⟨"skeptical", "short", 60/100⟩ ∧
    Persona.persona_profile ⟨"Rushed"⟩ = ⟨"rushed", "short", 45/100⟩ ∧
    Persona.persona_profile ⟨"Annoyed"⟩ = ⟨"annoyed", "short", 70/100⟩ ∧
    Persona.persona_profile ⟨"Technical buyer"⟩ = ⟨"technical", "detailed", 40/100⟩ ∧
    Persona.persona_profile ⟨"Economic buyer"⟩ = ⟨"pragmatic", "medium", 50/100⟩ := by
  simp only [List.mem_cons, List.not_mem_nil, or_false, not_or] at h
  obtain ⟨h1, h2, h3, h4, h5, h6⟩ := h
  refine ⟨?_, rfl, rfl, rfl, rfl, rfl, rfl⟩
  unfold Persona.persona_profile
  simp [h1, h2, h3, h4, h5, h6]

/-- C9 witness: the lookup instantiated at the uncatalogued name "Bob". -/
theorem C9_persona_lookup_w :
    Persona.persona_profile ⟨"Bob"⟩ = ⟨"neutral", "medium", 30/100⟩ ∧
    Persona.persona_profile ⟨"Friendly"⟩ = ⟨"friendly", "medium", 25/100⟩ ∧
    Persona.persona_profile ⟨"Skeptical"⟩ = ⟨"skeptical", "short", 60/100⟩ ∧
    Persona.persona_profile ⟨"Rushed"⟩ = ⟨"rushed", "short", 45/100⟩ ∧
    Persona.persona_profile ⟨"Annoyed"⟩ = ⟨"annoyed", "short", 70/100⟩ ∧
    Persona.persona_profile ⟨"Technical buyer"⟩ = ⟨"technical", "detailed", 40/100⟩ ∧
    Persona.persona_profile ⟨"Economic buyer"⟩ = ⟨"pragmatic", "medium", 50/100⟩ :=
  C9_persona_lookup "Bob" (by decide)

/-- C10: the fallback objection phrase written with the typographic
apostrophe U+2019 is in the fallback catalog, its lower-cased text contains
no phrase of the scoring objection catalog (which spells the phrase with
the ASCII apostrophe), and a session whose only ai turn is that phrase gets
objectionCount 0 and objectionScore 100. -/
theorem C10_fallback_objection_undetected :
    ("I\u2019m not interested." ∈ ob_list) ∧
    (OBJECTIONS.all (fun o => !(pyContains (pyLower "I\u2019m not interested.") o)) = true) ∧
    objection_count c10_conv = 0 ∧
    (score_conversation c10_conv "Cold call").map (fun r => r.1.objection_score) = some 100 := by
  decide

end SalesTrainer
